import Mathlib

/-!
Shallow embedding of the remote-test server core (Rust) in Lean 4:
the project entity with its content-addressed update protocol
(src/project.rs, src/zip.rs), the project registry (src/server.rs),
its JSON snapshot persistence, and the Capsule execution backends
(src/capsule.rs).

External effects (process execution, filesystem writes, the SHA-256
hash of the external crate) are modelled as explicit parameters, so
every definition is executable and the data flow of the Rust source is
preserved verbatim.
-/

namespace RemoteTest

/-- Output of an external process: `status.code()` (None when killed by a
signal), stdout and stderr byte vectors. Models `std::process::Output`. -/
structure ProcOutput where
  code : Option Int
  stdout : List Nat
  stderr : List Nat
deriving Repr, DecidableEq

/-- Models `pub type TestOutput = (String, Option<i32>, Vec<u8>, Vec<u8>)` from
src/project.rs: joined command string, exit code, stdout, stderr. -/
def TestOutput : Type := String × Option Int × List Nat × List Nat

instance : DecidableEq TestOutput := by
  unfold TestOutput; infer_instance

instance : Repr TestOutput := by
  unfold TestOutput; infer_instance

/-- Result of running Rust code that can return `Ok`, return `Err`, or
panic (e.g. an unguarded index `cmd[0]` on an empty vector, or
`Option::unwrap` on `None`). -/
inductive PResult (α : Type) where
  | ok (val : α)
  | err (msg : String)
  | panicked (msg : String)
deriving Repr, DecidableEq

/-- True exactly on `PResult.err`. -/
def PResult.isErr {α : Type} : PResult α → Bool
  | .err _ => true
  | _ => false

/-- Models `str::join(" ")` / `Vec::join(" ")` on strings. -/
def joinSpace (items : List String) : String :=
  String.intercalate " " items

/-- Models the external `shell_words::join` at the boundary: the commands
in all claims are plain words, for which it is a space join (its quoting
of special characters is not modelled; no claim depends on it). -/
def shellJoin (items : List String) : String :=
  String.intercalate " " items

/-- Models `TestResult` message fields relevant to outcomes (src/project.rs
`impl From<TestOutput> for TestResult`): `success` is derived, true iff
the exit code is `Some(0)`. -/
structure TestResult where
  command : String
  stdout : List Nat
  stderr : List Nat
  success : Bool
deriving Repr, DecidableEq

/-- Models `From<TestOutput> for TestResult` (src/project.rs lines 12-26):
`success = code.filter(|x| *x == 0).is_some()`. -/
def TestResult.fromOutput (t : TestOutput) : TestResult :=
  let (cmd, code, stdout, stderr) := t
  { command := cmd
    stdout := stdout
    stderr := stderr
    success := ((code.filter (fun x => x == 0)).isSome : Bool) }

/-- Models `ZipFile` (src/zip.rs): the digest paired with the local blob file;
`content` stands for the bytes written at `path` by `from_contents`. -/
structure ZipFile where
  hash : String
  content : List Nat
deriving Repr, DecidableEq

/-- Models `ZipFile::from_contents` (src/zip.rs lines 22-39): computes the hash
from `content` via the hash function and writes exactly `content` to the
local path. `hashFn` models `crate::hash::hash` (external SHA-256 +
base64). -/
def ZipFile.fromContents (content : List Nat) (hashFn : List Nat → String) : ZipFile :=
  { hash := hashFn content, content := content }

/-- Models `ZipFile::compare_hash` (src/zip.rs lines 51-53). -/
def ZipFile.compareHash (z : ZipFile) (other : String) : Bool :=
  z.hash == other

/-- Models `TestProject` (src/project.rs lines 28-33): `hash = none` is the
Uninitialized content state, `hash = some h` is Committed(h). -/
structure TestProject where
  name : String
  tests : List (List String)
  hash : Option String
deriving Repr, DecidableEq

/-- Models `TestProject::get_dir` (src/project.rs lines 47-51): base_dir/name. -/
def TestProject.getDir (p : TestProject) (baseDir : String) : String :=
  baseDir ++ "/" ++ p.name

instance {ε α : Type} [DecidableEq ε] [DecidableEq α] : DecidableEq (Except ε α)
  | .ok a, .ok b => decidable_of_iff (a = b) (by simp)
  | .error a, .error b => decidable_of_iff (a = b) (by simp)
  | .ok _, .error _ => isFalse (fun h => Except.noConfusion h)
  | .error _, .ok _ => isFalse (fun h => Except.noConfusion h)

/-- Result of one `apply_update` call on a `&mut self` receiver: the
project state after the call, the returned `Result<(), String>`, and
whether `extract_into` was reached (it touches the filesystem). -/
structure UpdateOutcome where
  state : TestProject
  result : Except String Unit
  extracted : Bool
deriving Repr, DecidableEq

/-- Models `TestProject::apply_update` (src/project.rs lines 56-74).
`extractRes` is the outcome of `content.extract_into(&dir)` when it is
reached: `none` for success, `some e` for the error it returns. -/
def TestProject.applyUpdate (p : TestProject) (content : ZipFile) (hash : String)
    (extractRes : Option String) : UpdateOutcome :=
  if p.hash.isSome then
    { state := p
      result := .error ("Project " ++ p.name ++ " can not apply update, as it is in an unsuitable state")
      extracted := false }
  else if !(content.compareHash hash) then
    { state := p, result := .error "Hashsum mismatch", extracted := false }
  else
    match extractRes with
    | some e =>
        { state := p
          result := .error ("Could not extract zip archive: " ++ e)
          extracted := true }
    | none =>
        { state := { p with hash := some hash }, result := .ok (), extracted := true }

/-- Models `run_test` (src/project.rs lines 119-138). `exec dir cmd` models
`Command::new(&command[0]).current_dir(dir).args(&command[1..]).output()`:
`Except.error` is the launch failure propagated by `?`. The unguarded
`&command[0]` panics on an empty vector before any process is spawned. -/
def runTest (command : List String) (dir : String)
    (exec : String → List String → Except String ProcOutput) : PResult TestOutput :=
  match command with
  | [] => .panicked "index out of bounds: the len is 0 but the index is 0"
  | _ :: _ =>
    match exec dir command with
    | .error e => .err e
    | .ok output => .ok (shellJoin command, output.code, output.stdout, output.stderr)

/-- The loop body of `execute_all_tests` (src/project.rs lines 82-88):
run each test in order, aborting the whole run on the `?` of `run_test`. -/
def runTestsLoop (dir : String) (exec : String → List String → Except String ProcOutput) :
    List (List String) → PResult (List TestOutput)
  | [] => .ok []
  | t :: ts =>
    match runTest t dir exec with
    | .panicked m => .panicked m
    | .err e => .err e
    | .ok r =>
      match runTestsLoop dir exec ts with
      | .panicked m => .panicked m
      | .err e => .err e
      | .ok rs => .ok (r :: rs)

/-- Models `TestProject::execute_all_tests` (src/project.rs lines 76-90). -/
def TestProject.executeAllTests (p : TestProject) (baseDir : String)
    (exec : String → List String → Except String ProcOutput) : PResult (List TestOutput) :=
  if p.hash.isNone then
    .err "project is not initialized"
  else
    runTestsLoop (p.getDir baseDir) exec p.tests

/-- Models `RegisterResponse` message fields (src/server.rs). -/
structure RegisterResponse where
  success : Bool
  error : Option String
deriving Repr, DecidableEq

/-- The project map `HashMap<String, TestProject>`, modelled as an
association list with `List.lookup` semantics; `contains_key` is
`(lookup name).isSome`. -/
abbrev Registry : Type := List (String × TestProject)

/-- Models `contains_key` on the project map. -/
def Registry.containsKey (reg : Registry) (name : String) : Bool :=
  (reg.lookup name).isSome

/-- Models `RemoteServerContext::register_project` (src/server.rs lines 72-98):
insert the new project only if its name is not yet a key; on a duplicate
name answer `success = false` with an error message and leave the map
untouched. Returns the map after the call and the response. -/
def registerProject (reg : Registry) (project : TestProject) :
    Registry × RegisterResponse :=
  let name := project.name
  if reg.containsKey name then
    (reg, { success := false
            error := some ("Project with name " ++ name ++ " already exists!") })
  else
    ((name, project) :: reg, { success := true, error := none })

/-- JSON values as produced by the serde_json snapshot of the registry
(numbers are not needed: a `TestProject` serializes to strings, arrays,
null and objects only). -/
inductive Json where
  | null
  | str (s : String)
  | arr (items : List Json)
  | obj (fields : List (String × Json))
deriving Repr

/-- The derived `Serialize` for `TestProject` (src/project.rs line 28):
a JSON object with the three fields in declaration order; `Option` goes
to null / the value. -/
def TestProject.toJson (p : TestProject) : Json :=
  .obj
    [ ("name", .str p.name)
    , ("tests", .arr (p.tests.map (fun t => .arr (t.map Json.str))))
    , ("hash", match p.hash with | none => .null | some h => .str h) ]

/-- Option-valued decoding of every element of a list, as serde does
for JSON sequences: the whole list decodes only when every element
does. -/
def decodeAll {α β : Type} (g : α → Option β) : List α → Option (List β)
  | [] => some []
  | x :: xs =>
    match g x with
    | none => none
    | some y =>
      match decodeAll g xs with
      | none => none
      | some ys => some (y :: ys)

/-- Decode a JSON string. -/
def Json.asStr : Json → Option String
  | .str s => some s
  | _ => none

/-- Decode one serialized test command (array of strings). -/
def Json.asStrList : Json → Option (List String)
  | .arr items => decodeAll Json.asStr items
  | _ => none

/-- Decode the serialized test list (array of arrays of strings). -/
def Json.asTests : Json → Option (List (List String))
  | .arr items => decodeAll Json.asStrList items
  | _ => none

/-- Decode the serialized content state (`null` or a string). -/
def Json.asHash : Json → Option (Option String)
  | .null => some none
  | .str s => some (some s)
  | _ => none

/-- The derived `Deserialize` for `TestProject`: read the three fields
out of the object. -/
def TestProject.fromJson (j : Json) : Option TestProject :=
  match j with
  | .obj fields => do
      let name ← (fields.lookup "name").bind Json.asStr
      let tests ← (fields.lookup "tests").bind Json.asTests
      let hash ← (fields.lookup "hash").bind Json.asHash
      pure { name := name, tests := tests, hash := hash }
  | _ => none

/-- Models `flush_to_file` (src/server.rs lines 14-25) serializes the map values
as a JSON array of projects. -/
def snapshotToJson (projects : List TestProject) : Json :=
  .arr (projects.map TestProject.toJson)

/-- Startup load in `main` (src/server.rs lines 303-308): deserialize a
`Vec<TestProject>` from the snapshot. -/
def snapshotFromJson (j : Json) : Option (List TestProject) :=
  match j with
  | .arr items => decodeAll TestProject.fromJson items
  | _ => none

/-- Models `TransparentCapsule` (src/capsule.rs lines 24-26): the recorded
working directory, `none` before `encapsulate`. -/
structure TransparentCapsule where
  dir : Option String
deriving Repr, DecidableEq

/-- Models `TransparentCapsule::encapsulate` (src/capsule.rs lines 34-38):
record the directory, no isolation. -/
def TransparentCapsule.encapsulate (c : TransparentCapsule) (dir : String) :
    TransparentCapsule × Except String Unit :=
  ({ c with dir := some dir }, .ok ())

/-- Models `TransparentCapsule::run_test` (src/capsule.rs lines 40-63): with no
recorded directory answer a NotFound error; otherwise launch
`Command::new(&cmd[0])` in the directory — the unguarded `cmd[0]`
panics on an empty vector. -/
def TransparentCapsule.runTest (c : TransparentCapsule) (cmd : List String)
    (exec : String → List String → Except String ProcOutput) : PResult TestOutput :=
  match c.dir with
  | some dir =>
    match cmd with
    | [] => .panicked "index out of bounds: the len is 0 but the index is 0"
    | _ :: _ =>
      match exec dir cmd with
      | .error e => .err e
      | .ok output => .ok (shellJoin cmd, output.code, output.stdout, output.stderr)
  | none => .err "Directory not found"

/-- Models `TransparentCapsule::discard` (src/capsule.rs lines 65-68): no-op. -/
def TransparentCapsule.discard (_c : TransparentCapsule) : Except String Unit :=
  .ok ()

/-- Models `PodOptions` (src/capsule.rs lines 86-93): image and exposed ports,
both optional. -/
structure PodOptions where
  image : Option String
  ports : Option (List Nat)
deriving Repr, DecidableEq

/-- Models `Default for PodOptions` (src/capsule.rs lines 95-99). -/
def PodOptions.default : PodOptions :=
  { image := none, ports := none }

/-- Models `PodOptions::merge` (src/capsule.rs lines 106-116): a value present
in `other` replaces the one in `self`. -/
def PodOptions.merge (self other : PodOptions) : PodOptions :=
  let withImage :=
    match other.image with
    | some image => { self with image := some image }
    | none => self
  match other.ports with
  | some ports => { withImage with ports := some ports }
  | none => withImage

/-- Models `PodOptions::as_args_str` (src/capsule.rs lines 119-130): kubectl
options, image first, then one `--port=` per port. -/
def PodOptions.asArgsStr (o : PodOptions) : List String :=
  let args : List String :=
    match o.image with
    | some image => ["--image=" ++ image]
    | none => []
  match o.ports with
  | some ports => args ++ ports.map (fun port => "--port=" ++ toString port)
  | none => args

/-- Models `KubernetesCapsule` (src/capsule.rs lines 136-147). `ns` is the Rust
field `namespace` (a reserved word in Lean). -/
structure KubernetesCapsule where
  program : Option String
  token : String
  ns : String
  options : PodOptions
  podname : Option String
deriving Repr, DecidableEq

/-- Models `KubernetesCapsule::kube_cmd` (src/capsule.rs lines 158-169): spawn
the external program with the given args; a spawn failure propagates as
`Err`, otherwise the raw output is returned (the exit status is NOT
inspected here). `exec` models the operating system running kubectl. -/
def KubernetesCapsule.kubeCmd (_c : KubernetesCapsule) (args : List String)
    (exec : List String → Except String ProcOutput) : Except String ProcOutput :=
  exec args

/-- Models `KubernetesCapsule::kube_cmd_silent` (src/capsule.rs lines 172-179),
verbatim: after a successful spawn it answers
`Err` when `output.status.code().is_some() && ... == 0` and `Ok(())`
otherwise — i.e. the error branch is taken exactly on exit code 0. -/
def KubernetesCapsule.kubeCmdSilent (c : KubernetesCapsule) (args : List String)
    (exec : List String → Except String ProcOutput) : Except String Unit :=
  match c.kubeCmd args exec with
  | .error e => .error e
  | .ok output =>
    if output.code.isSome && (output.code.getD (-1)) == 0 then
      .error ("kubectl " ++ joinSpace args ++ " return code: " ++ toString (output.code.getD (-1)))
    else
      .ok ()

/-- Models `KubernetesCapsule::kube_run` (src/capsule.rs lines 181-187): issue
the create-pod command `run <podname> <options as args>` built from
`self.options`; `self.podname.clone().unwrap()` panics when no podname
is set. -/
def KubernetesCapsule.kubeRun (c : KubernetesCapsule)
    (exec : List String → Except String ProcOutput) : PResult Unit :=
  match c.podname with
  | none => .panicked "called Option::unwrap on a None value"
  | some podname =>
    let args := "run" :: podname :: c.options.asArgsStr
    match c.kubeCmdSilent args exec with
    | .error e => .err e
    | .ok () => .ok ()

/-- Models `KubernetesCapsule::kube_cp` (src/capsule.rs lines 189-205) for the
`to_pod` direction used by `encapsulate`: `cp <src> <podname>:<dest>`;
panics when no podname is set. -/
def KubernetesCapsule.kubeCp (c : KubernetesCapsule) (src dest : String)
    (exec : List String → Except String ProcOutput) : PResult Unit :=
  match c.podname with
  | none => .panicked "No podname defined"
  | some podname =>
    let args := ["cp", src, podname ++ ":" ++ dest]
    match c.kubeCmdSilent args exec with
    | .error e => .err e
    | .ok () => .ok ()

/-- Models `KubernetesCapsule::kube_exec` (src/capsule.rs lines 207-219):
`exec <podname> -- <cmd...>`; panics when no podname is set. -/
def KubernetesCapsule.kubeExec (c : KubernetesCapsule) (pArgs : List String)
    (exec : List String → Except String ProcOutput) : PResult ProcOutput :=
  match c.podname with
  | none => .panicked "No podname defined"
  | some podname =>
    let args := ["exec", podname, "--"] ++ pArgs
    match c.kubeCmd args exec with
    | .error e => .err e
    | .ok output => .ok output

/-- Models `KubernetesCapsule::kube_delete_pod` (src/capsule.rs lines 221-231):
`delete pod <podname>`; panics when no podname is set. -/
def KubernetesCapsule.kubeDeletePod (c : KubernetesCapsule)
    (exec : List String → Except String ProcOutput) : PResult Unit :=
  match c.podname with
  | none => .panicked "No podname defined"
  | some podname =>
    let args := ["delete", "pod", podname]
    match c.kubeCmdSilent args exec with
    | .error e => .err e
    | .ok () => .ok ()

/-- Models `Capsule::encapsulate` for `KubernetesCapsule` (src/capsule.rs lines
241-253): set `podname = rtk-capsule-<ident>`, compute
`self.options.clone().merge(&args)` into a local that is never used,
then create the pod via `kube_run` (which reads `self.options`) and copy
the source directory to `/etc/repo/`. Returns the capsule state after
the call and the call result. -/
def KubernetesCapsule.encapsulate (c : KubernetesCapsule) (ident : String) (dir : String)
    (args : PodOptions) (exec : List String → Except String ProcOutput) :
    KubernetesCapsule × PResult Unit :=
  let c1 := { c with podname := some ("rtk-capsule-" ++ ident) }
  let _options := c1.options.merge args
  match c1.kubeRun exec with
  | .panicked m => (c1, .panicked m)
  | .err e => (c1, .err e)
  | .ok () =>
    match c1.kubeCp dir "/etc/repo/" exec with
    | .panicked m => (c1, .panicked m)
    | .err e => (c1, .err e)
    | .ok () => (c1, .ok ())

/-- The args of the create-pod command as `encapsulate` actually issues
it: `kube_run` reads `self.options`, which the discarded merge result
never modified. -/
def KubernetesCapsule.encapsulateCreateArgs (c : KubernetesCapsule) (ident : String)
    (_args : PodOptions) : List String :=
  "run" :: ("rtk-capsule-" ++ ident) :: c.options.asArgsStr

/-- Modelled from the spec: the create-pod command parameters the spec
prescribes for `encapsulate` — the base options merged with the call
arguments, where the call arguments take preference. -/
def KubernetesCapsule.encapsulateCreateArgsSpec (c : KubernetesCapsule) (ident : String)
    (args : PodOptions) : List String :=
  "run" :: ("rtk-capsule-" ++ ident) :: (c.options.merge args).asArgsStr

/-- Models `Capsule::run_test` for `KubernetesCapsule` (src/capsule.rs lines
256-259): `kube_exec` with the command vector passed verbatim (no
element of `cmd` is indexed), outcome command string is `cmd.join(" ")`. -/
def KubernetesCapsule.runTest (c : KubernetesCapsule) (cmd : List String)
    (exec : List String → Except String ProcOutput) : PResult TestOutput :=
  match c.kubeExec cmd exec with
  | .panicked m => .panicked m
  | .err e => .err e
  | .ok output => .ok (joinSpace cmd, output.code, output.stdout, output.stderr)

/-- Models `Capsule::discard` for `KubernetesCapsule` (src/capsule.rs lines
261-264): delete the pod. -/
def KubernetesCapsule.discard (c : KubernetesCapsule)
    (exec : List String → Except String ProcOutput) : PResult Unit :=
  c.kubeDeletePod exec

/-- Models `Project` protobuf message (name + test command strings) as consumed
by `From<crate::pb::Project> for TestProject`. -/
structure PbProject where
  name : String
  tests : List String
deriving Repr, DecidableEq

/-- Models `From<crate::pb::Project> for TestProject` (src/project.rs lines
93-105): each test string goes through `shell_words::split`, and an
unparseable string becomes the empty command vector via
`unwrap_or(Vec::new())`; the content state starts out absent. `split`
models the external `shell_words::split`, `none` standing for its parse
error. -/
def TestProject.fromPb (split : String → Option (List String)) (project : PbProject) :
    TestProject :=
  { name := project.name
    tests := project.tests.map (fun s => (split s).getD [])
    hash := none }

/-- Concrete capsule with a podname set, for exercising the pod
commands. -/
def demoCapsule : KubernetesCapsule :=
  { program := none
    token := "t"
    ns := "default"
    options := PodOptions.default
    podname := some "rtk-capsule-demo" }

/-- Base capsule configuration with default (empty) pod options and no
podname, as before `encapsulate`. -/
def baseCapsule : KubernetesCapsule :=
  { program := none
    token := "t"
    ns := "default"
    options := PodOptions.default
    podname := none }

/-- Pod options supplied as `backend_args`, requesting the alpine
image. -/
def alpineArgs : PodOptions :=
  { image := some "alpine", ports := none }

/-- Probe executor that fails to spawn exactly when the issued command
carries the merged-in image parameter, and otherwise reports exit
status 1 (which `kube_cmd_silent`, with its inverted check, treats as
success). -/
def imageProbe : List String → Except String ProcOutput :=
  fun args =>
    if args.contains "--image=alpine" then .error "probe: merged image was used"
    else .ok ⟨some 1, [], []⟩

/-- Kubernetes capsule as constructed, before any `encapsulate`: no
podname is set. -/
def freshKubeCapsule : KubernetesCapsule :=
  { program := none
    token := "t"
    ns := "default"
    options := PodOptions.default
    podname := none }

/-- Kubernetes capsule after an `encapsulate` set the podname, for
exercising `run_test` with concrete inputs. -/
def podKubeCapsule : KubernetesCapsule :=
  { program := none
    token := "t"
    ns := "default"
    options := PodOptions.default
    podname := some "rtk-capsule-p" }

section Theorems

/-- C1: the claim says a sandbox-management command (pod create via
kube_run, copy via kube_cp, pod delete via kube_delete_pod) is reported
as an error exactly when the external command exits non-zero. The code
has the check inverted: `kube_cmd_silent` answers `Err` exactly on exit
status 0 and `Ok(())` on every non-zero (or absent) status, so a
successful `kubectl` invocation is reported as a CapsuleError and a
failing one as success, on all three paths. -/
theorem kube_cmd_silent_inverted_exit_check :
    demoCapsule.kubeRun (fun _ => .ok ⟨some 0, [], []⟩) =
      .err "kubectl run rtk-capsule-demo return code: 0"
    ∧ demoCapsule.kubeRun (fun _ => .ok ⟨some 1, [], []⟩) = .ok ()
    ∧ (demoCapsule.kubeCp "/src" "/etc/repo/" (fun _ => .ok ⟨some 0, [], []⟩)).isErr = true
    ∧ demoCapsule.kubeCp "/src" "/etc/repo/" (fun _ => .ok ⟨some 1, [], []⟩) = .ok ()
    ∧ (demoCapsule.kubeDeletePod (fun _ => .ok ⟨some 0, [], []⟩)).isErr = true
    ∧ demoCapsule.kubeDeletePod (fun _ => .ok ⟨some 1, [], []⟩) = .ok () := by
  exact ⟨rfl, rfl, rfl, rfl, rfl, rfl⟩

/-- C2: the claim says `encapsulate` issues the create-pod command with
the base options merged with `backend_args` (call arguments taking
preference). The code computes `self.options.clone().merge(&args)` into
a local that is never read, and `kube_run` builds the command from the
unmerged `self.options`: with empty base options and an image supplied
in `backend_args`, the issued create command carries no `--image`
parameter at all, and the whole `encapsulate` run never issues a
command containing it. -/
theorem encapsulate_discards_merged_options :
    baseCapsule.encapsulateCreateArgs "x" alpineArgs = ["run", "rtk-capsule-x"]
    ∧ baseCapsule.encapsulateCreateArgsSpec "x" alpineArgs =
        ["run", "rtk-capsule-x", "--image=alpine"]
    ∧ baseCapsule.encapsulateCreateArgs "x" alpineArgs ≠
        baseCapsule.encapsulateCreateArgsSpec "x" alpineArgs
    ∧ (baseCapsule.encapsulate "x" "/src" alpineArgs imageProbe).2 = .ok () := by
  refine ⟨rfl, rfl, by decide, rfl⟩

/-- C3: `apply_update` succeeds at most once. On an Uninitialized
project with a matching digest and successful extraction it commits the
content state to the claimed digest; on any project whose content state
is Committed, `apply_update` (with any digest, any extraction outcome)
fails with the unsuitable-state error and leaves the stored state
unchanged, so there is no transition from Committed back to
Uninitialized. -/
theorem apply_update_at_most_once
    (p : TestProject) (z : ZipFile) (dig : String)
    (hUninit : p.hash = none) (hMatch : z.hash = dig) :
    (p.applyUpdate z dig none).result = .ok ()
    ∧ (p.applyUpdate z dig none).state.hash = some dig
    ∧ (∀ (q : TestProject) (z2 : ZipFile) (dig2 : String) (er2 : Option String),
        q.hash.isSome = true →
          (q.applyUpdate z2 dig2 er2).result =
            .error ("Project " ++ q.name ++ " can not apply update, as it is in an unsuitable state")
          ∧ (q.applyUpdate z2 dig2 er2).state = q) := by
  have hcmp : z.compareHash dig = true := by
    simp [ZipFile.compareHash, hMatch]
  refine ⟨?_, ?_, ?_⟩
  · simp [TestProject.applyUpdate, hUninit, hcmp]
  · simp [TestProject.applyUpdate, hUninit, hcmp]
  · intro q z2 dig2 er2 hq
    constructor <;> simp [TestProject.applyUpdate, hq]

/-- Witness for C3 at a concrete project: the first update commits the
digest, a second update with a different digest fails and leaves the
committed state in place. -/
theorem apply_update_at_most_once_witness :
    (TestProject.applyUpdate ⟨"demo", [["echo", "hi"]], none⟩ ⟨"d", [1, 2]⟩ "d" none).result = .ok ()
    ∧ (TestProject.applyUpdate ⟨"demo", [["echo", "hi"]], none⟩ ⟨"d", [1, 2]⟩ "d" none).state.hash = some "d"
    ∧ ((TestProject.applyUpdate ⟨"demo", [["echo", "hi"]], none⟩ ⟨"d", [1, 2]⟩ "d" none).state.applyUpdate
        ⟨"e", [3]⟩ "e" none).state =
        (TestProject.applyUpdate ⟨"demo", [["echo", "hi"]], none⟩ ⟨"d", [1, 2]⟩ "d" none).state := by
  have h := apply_update_at_most_once ⟨"demo", [["echo", "hi"]], none⟩ ⟨"d", [1, 2]⟩ "d" rfl rfl
  refine ⟨h.1, h.2.1, ?_⟩
  exact (h.2.2 _ ⟨"e", [3]⟩ "e" none (by rw [h.2.1]; rfl)).2

/-- C4: the digest of an uploaded archive is computed server-side over
the bytes written to the blob file (`from_contents` derives it from the
content alone — the client claim is not even an input), and the claimed
digest is used only as an equality check: whenever it differs from the
recomputed digest, `apply_update` on an Uninitialized project fails
with the hash-mismatch error, stores no hash, and never reaches
extraction. -/
theorem claimed_digest_only_checked
    (content : List Nat) (hashFn : List Nat → String) (p : TestProject)
    (claimed : String) (extractRes : Option String)
    (hUninit : p.hash = none)
    (hMismatch : claimed ≠ hashFn content) :
    ZipFile.fromContents content hashFn =
      { hash := hashFn content, content := content }
    ∧ (ZipFile.fromContents content hashFn).hash =
        hashFn (ZipFile.fromContents content hashFn).content
    ∧ (p.applyUpdate (ZipFile.fromContents content hashFn) claimed extractRes).result =
        .error "Hashsum mismatch"
    ∧ (p.applyUpdate (ZipFile.fromContents content hashFn) claimed extractRes).state = p
    ∧ (p.applyUpdate (ZipFile.fromContents content hashFn) claimed extractRes).extracted = false := by
  have hcmp : (ZipFile.fromContents content hashFn).compareHash claimed = false := by
    simp [ZipFile.compareHash, ZipFile.fromContents]
    exact fun hh => hMismatch hh.symm
  refine ⟨rfl, rfl, ?_, ?_, ?_⟩ <;>
    simp [TestProject.applyUpdate, hUninit, hcmp]

/-- Witness for C4 at a concrete upload whose claimed digest differs
from the recomputed one. -/
theorem claimed_digest_only_checked_witness :
    (TestProject.applyUpdate ⟨"demo", [], none⟩
        (ZipFile.fromContents [7, 7] (fun bs => toString bs.length)) "claimed" none).result =
      .error "Hashsum mismatch"
    ∧ (TestProject.applyUpdate ⟨"demo", [], none⟩
        (ZipFile.fromContents [7, 7] (fun bs => toString bs.length)) "claimed" none).state =
        ⟨"demo", [], none⟩ := by
  have h := claimed_digest_only_checked [7, 7] (fun bs => toString bs.length)
    ⟨"demo", [], none⟩ "claimed" none rfl (by decide)
  exact ⟨h.2.2.1, h.2.2.2.1⟩

/-- C5: `execute_all_tests` on an Uninitialized project (hash absent)
fails with the not-initialized error; the result is this constant for
every executor, so no test command and no capsule operation can have
been invoked. -/
theorem execute_all_tests_requires_init
    (p : TestProject) (baseDir : String)
    (exec : String → List String → Except String ProcOutput)
    (hUninit : p.hash = none) :
    p.executeAllTests baseDir exec = .err "project is not initialized" := by
  simp [TestProject.executeAllTests, hUninit]

/-- Witness for C5 at a concrete uninitialized project. -/
theorem execute_all_tests_requires_init_witness :
    TestProject.executeAllTests ⟨"demo", [["echo", "hi"]], none⟩ "/base"
      (fun _ _ => .ok ⟨some 0, [], []⟩) = .err "project is not initialized" :=
  execute_all_tests_requires_init ⟨"demo", [["echo", "hi"]], none⟩ "/base"
    (fun _ _ => .ok ⟨some 0, [], []⟩) rfl

/-- When every configured command is non-empty and every launch
succeeds, the loop returns one outcome per command, in declaration
order, regardless of the exit codes. -/
lemma runTestsLoop_all_ok (dir : String) (f : List String → ProcOutput)
    (ts : List (List String)) (h : ∀ t ∈ ts, t ≠ []) :
    runTestsLoop dir (fun _ c => .ok (f c)) ts =
      .ok (ts.map (fun t => (shellJoin t, (f t).code, (f t).stdout, (f t).stderr))) := by
  induction ts with
  | nil => rfl
  | cons t ts ih =>
    have ht : t ≠ [] := h t (List.mem_cons_self t ts)
    have hts : ∀ c ∈ ts, c ≠ [] := fun c hc => h c (List.mem_cons_of_mem t hc)
    cases t with
    | nil => exact absurd rfl ht
    | cons a as =>
      simp [runTestsLoop, runTest, ih hts]

/-- When an earlier command launches fine but some command fails to
launch, the loop aborts with that launch error and returns no
results. -/
lemma runTestsLoop_abort (dir : String)
    (exec : String → List String → Except String ProcOutput)
    (ts1 : List (List String)) (t : List String) (ts2 : List (List String)) (e : String)
    (h1 : ∀ c ∈ ts1, c ≠ [] ∧ ∃ o, exec dir c = .ok o)
    (ht : t ≠ []) (he : exec dir t = .error e) :
    runTestsLoop dir exec (ts1 ++ t :: ts2) = .err e := by
  induction ts1 with
  | nil =>
    cases t with
    | nil => exact absurd rfl ht
    | cons a as => simp [runTestsLoop, runTest, he]
  | cons c cs ih =>
    obtain ⟨hc, o, ho⟩ := h1 c (List.mem_cons_self c cs)
    have hcs : ∀ x ∈ cs, x ≠ [] ∧ ∃ o, exec dir x = .ok o :=
      fun x hx => h1 x (List.mem_cons_of_mem c hx)
    cases c with
    | nil => exact absurd rfl hc
    | cons a as =>
      simp [runTestsLoop, runTest, ho, ih hcs]

/-- C6: on an initialized project the configured commands run
sequentially in declaration order: when every command launches, the
run returns exactly one outcome per command in order (a non-zero exit
code is recorded in its outcome — which converts to a non-success
TestResult — and execution continues); when some command fails to
launch after the preceding ones launched, the whole run aborts with
that error and no results are returned. -/
theorem execute_all_tests_sequential
    (p : TestProject) (baseDir : String) (dig : String)
    (hInit : p.hash = some dig) :
    (∀ (f : List String → ProcOutput),
        (∀ t ∈ p.tests, t ≠ []) →
        p.executeAllTests baseDir (fun _ c => .ok (f c)) =
          .ok (p.tests.map (fun t => (shellJoin t, (f t).code, (f t).stdout, (f t).stderr))))
    ∧ (∀ (exec : String → List String → Except String ProcOutput)
          (ts1 : List (List String)) (t : List String) (ts2 : List (List String)) (e : String),
        p.tests = ts1 ++ t :: ts2 →
        (∀ c ∈ ts1, c ≠ [] ∧ ∃ o, exec (p.getDir baseDir) c = .ok o) →
        t ≠ [] →
        exec (p.getDir baseDir) t = .error e →
        p.executeAllTests baseDir exec = .err e)
    ∧ (∀ (cmd : String) (code : Option Int) (out errb : List Nat),
        code ≠ some 0 →
        (TestResult.fromOutput (cmd, code, out, errb)).success = false) := by
  refine ⟨?_, ?_, ?_⟩
  · intro f hne
    simp only [TestProject.executeAllTests, hInit, Option.isNone_some, Bool.false_eq_true,
      if_false]
    exact runTestsLoop_all_ok _ f p.tests hne
  · intro exec ts1 t ts2 e hsplit h1 ht he
    simp only [TestProject.executeAllTests, hInit, Option.isNone_some, Bool.false_eq_true,
      if_false, hsplit]
    exact runTestsLoop_abort _ exec ts1 t ts2 e h1 ht he
  · intro cmd code out errb hcode
    cases code with
    | none => rfl
    | some c =>
      have hc : ¬ (c = 0) := fun hh => hcode (by rw [hh])
      simp [TestResult.fromOutput, Option.filter, hc]

/-- Witness for C6 at a concrete initialized project: a run where the
second command exits 1 still yields both outcomes in order (the second
converting to a non-success result), and a run where the second command
cannot launch aborts with its error. -/
theorem execute_all_tests_sequential_witness :
    TestProject.executeAllTests ⟨"demo", [["echo", "hi"], ["false"]], some "d"⟩ "/base"
      (fun _ c => .ok (if c = ["false"] then ⟨some 1, [], []⟩ else ⟨some 0, [104, 105], []⟩)) =
      .ok [("echo hi", some 0, [104, 105], []), ("false", some 1, [], [])]
    ∧ TestProject.executeAllTests ⟨"demo", [["echo", "hi"], ["nosuch"]], some "d"⟩ "/base"
        (fun _ c => if c = ["nosuch"] then .error "No such file or directory"
          else .ok ⟨some 0, [], []⟩) =
        .err "No such file or directory"
    ∧ (TestResult.fromOutput ("false", some 1, [], [])).success = false := by
  have h1 := (execute_all_tests_sequential ⟨"demo", [["echo", "hi"], ["false"]], some "d"⟩
    "/base" "d" rfl).1
    (fun c => if c = ["false"] then ⟨some 1, [], []⟩ else ⟨some 0, [104, 105], []⟩)
    (by intro t h; fin_cases h <;> decide)
  have h2 := (execute_all_tests_sequential ⟨"demo", [["echo", "hi"], ["nosuch"]], some "d"⟩
    "/base" "d" rfl).2.1
    (fun _ c => if c = ["nosuch"] then .error "No such file or directory"
      else .ok ⟨some 0, [], []⟩)
    [["echo", "hi"]] ["nosuch"] [] "No such file or directory" rfl
    (by intro c h; fin_cases h; exact ⟨by decide, ⟨some 0, [], []⟩, by decide⟩)
    (by decide) (by decide)
  have h3 := (execute_all_tests_sequential ⟨"demo", [["echo", "hi"], ["false"]], some "d"⟩
    "/base" "d" rfl).2.2 "false" (some 1) [] [] (by decide)
  exact ⟨by rw [h1]; rfl, h2, h3⟩

/-- C7 counterexample: the claim says `run_test` before `encapsulate`
is rejected with an error on every backend. On the Kubernetes backend
it is not: `kube_exec` hits `panic!("No podname defined")`, which
aborts instead of returning an error value. -/
theorem run_test_before_encapsulate_kube_panics :
    (freshKubeCapsule.runTest ["echo", "hi"] (fun _ => .ok ⟨some 0, [], []⟩)).isErr = false
    ∧ freshKubeCapsule.runTest ["echo", "hi"] (fun _ => .ok ⟨some 0, [], []⟩) =
        .panicked "No podname defined" := by
  exact ⟨rfl, rfl⟩

/-- C7 amended: calling `run_test` before `encapsulate` never executes
a command on either backend — the result is a constant for every
executor — but only the transparent backend rejects it with an error
(Directory not found); the Kubernetes backend panics. (`run_test` after
`discard` and a second `discard` are unreachable in the source by
construction: `discard` takes the capsule by value.) -/
theorem run_test_before_encapsulate_rejected
    (cmd : List String)
    (execT : String → List String → Except String ProcOutput)
    (execK : List String → Except String ProcOutput) :
    TransparentCapsule.runTest ⟨none⟩ cmd execT = .err "Directory not found"
    ∧ freshKubeCapsule.runTest cmd execK = .panicked "No podname defined" := by
  exact ⟨rfl, rfl⟩

/-- Decoding inverts encoding elementwise. -/
lemma decodeAll_map {α β : Type} (g : β → Option α) (f : α → β)
    (h : ∀ x, g (f x) = some x) (xs : List α) :
    decodeAll g (xs.map f) = some xs := by
  induction xs with
  | nil => rfl
  | cons x xs ih => simp [decodeAll, h x, ih]

/-- Decoding a serialized test command gives it back. -/
lemma asStrList_encode (t : List String) :
    Json.asStrList (.arr (t.map Json.str)) = some t := by
  simp only [Json.asStrList]
  exact decodeAll_map Json.asStr Json.str (fun _ => rfl) t

/-- Decoding the serialized test list gives it back. -/
lemma asTests_encode (ts : List (List String)) :
    Json.asTests (.arr (ts.map (fun t => .arr (t.map Json.str)))) = some ts := by
  simp only [Json.asTests]
  exact decodeAll_map Json.asStrList (fun t => .arr (t.map Json.str)) asStrList_encode ts

/-- Deserializing the serialization of one project reconstructs it. -/
lemma fromJson_toJson (p : TestProject) :
    TestProject.fromJson p.toJson = some p := by
  cases p with
  | mk name tests hash =>
    cases hash <;>
      simp [TestProject.toJson, TestProject.fromJson, List.lookup, Json.asStr,
        Json.asHash, asTests_encode]

/-- C8: serializing the registry's projects to a snapshot and
deserializing that snapshot reconstructs exactly the same list of
projects — same names, same test command lists, same content state. -/
theorem snapshot_roundtrip (ps : List TestProject) :
    snapshotFromJson (snapshotToJson ps) = some ps := by
  simp only [snapshotToJson, snapshotFromJson]
  exact decodeAll_map TestProject.fromJson TestProject.toJson fromJson_toJson ps

/-- C9: with two distinct names not yet registered, registering the
first and then the second both succeed; registering the first name a
second time fails with a duplicate-name error and leaves the registry —
in particular the already-registered project — unchanged. -/
theorem register_unique_names
    (reg : Registry) (p1 p2 q : TestProject)
    (h12 : p1.name ≠ p2.name) (hq : q.name = p1.name)
    (h1 : reg.lookup p1.name = none) (h2 : reg.lookup p2.name = none) :
    (registerProject reg p1).2.success = true
    ∧ (registerProject (registerProject reg p1).1 p2).2.success = true
    ∧ (registerProject (registerProject (registerProject reg p1).1 p2).1 q).2.success = false
    ∧ (registerProject (registerProject (registerProject reg p1).1 p2).1 q).2.error =
        some ("Project with name " ++ q.name ++ " already exists!")
    ∧ (registerProject (registerProject (registerProject reg p1).1 p2).1 q).1 =
        (registerProject (registerProject reg p1).1 p2).1
    ∧ ((registerProject (registerProject reg p1).1 p2).1).lookup p1.name = some p1 := by
  have b21 : (p2.name == p1.name) = false := beq_eq_false_iff_ne.mpr (Ne.symm h12)
  have bq2 : (q.name == p2.name) = false := beq_eq_false_iff_ne.mpr (by rw [hq]; exact h12)
  have bq1 : (q.name == p1.name) = true := beq_iff_eq.mpr hq
  have b11 : (p1.name == p1.name) = true := beq_self_eq_true p1.name
  have b12 : (p1.name == p2.name) = false := beq_eq_false_iff_ne.mpr h12
  simp [registerProject, Registry.containsKey, List.lookup, h1, h2, b21, bq2, bq1, b11, b12]

/-- Witness for C9 with two concrete projects named a and b: both
registrations succeed, a second registration under the name a fails
with the duplicate-name error and the project stored under a is still
the first one. -/
theorem register_unique_names_witness :
    (registerProject [] ⟨"a", [["echo"]], none⟩).2.success = true
    ∧ (registerProject (registerProject [] ⟨"a", [["echo"]], none⟩).1 ⟨"b", [], none⟩).2.success = true
    ∧ (registerProject (registerProject (registerProject [] ⟨"a", [["echo"]], none⟩).1
        ⟨"b", [], none⟩).1 ⟨"a", [["true"]], none⟩).2.success = false
    ∧ ((registerProject (registerProject [] ⟨"a", [["echo"]], none⟩).1 ⟨"b", [], none⟩).1).lookup "a" =
        some ⟨"a", [["echo"]], none⟩ := by
  have h := register_unique_names [] ⟨"a", [["echo"]], none⟩ ⟨"b", [], none⟩
    ⟨"a", [["true"]], none⟩ (by decide) rfl rfl rfl
  exact ⟨h.1, h.2.1, h.2.2.1, h.2.2.2.2.2⟩

/-- C10 counterexample: the claim says `run_test` in both capsule
backends reads the first element of the command vector without a guard.
The Kubernetes backend does not: it appends the vector verbatim to
`exec <podname> --`, so on the empty command vector it executes
normally instead of panicking. -/
theorem kube_run_test_ignores_first_element :
    podKubeCapsule.runTest [] (fun _ => .ok ⟨some 0, [], []⟩) = .ok ("", some 0, [], []) := by
  exact rfl

/-- C10 amended: the project-entity `run_test` and the transparent
backend read the first element of the command vector without a guard
and panic on an empty vector, so those execution paths are only
well-defined when every executed command vector is non-empty; the
Kubernetes backend instead passes the vector verbatim without indexing
it. Project deserialization does not enforce the precondition: an
unparseable test-command string becomes the empty command vector. -/
theorem empty_command_precondition :
    (∀ (dir : String) (exec : String → List String → Except String ProcOutput),
        runTest [] dir exec = .panicked "index out of bounds: the len is 0 but the index is 0")
    ∧ (∀ (d : String) (exec : String → List String → Except String ProcOutput),
        TransparentCapsule.runTest ⟨some d⟩ [] exec =
          .panicked "index out of bounds: the len is 0 but the index is 0")
    ∧ (∀ (g : List String → ProcOutput) (cmd : List String),
        podKubeCapsule.runTest cmd (fun a => .ok (g a)) =
          .ok (joinSpace cmd, (g (["exec", "rtk-capsule-p", "--"] ++ cmd)).code,
               (g (["exec", "rtk-capsule-p", "--"] ++ cmd)).stdout,
               (g (["exec", "rtk-capsule-p", "--"] ++ cmd)).stderr))
    ∧ (∀ (split : String → Option (List String)) (nm s : String),
        split s = none →
        (TestProject.fromPb split ⟨nm, [s]⟩).tests = [[]]) := by
  refine ⟨fun _ _ => rfl, fun _ _ => rfl, fun _ _ => rfl, ?_⟩
  intro split nm s hs
  simp [TestProject.fromPb, hs]

/-- Witness for C10: the project-entity path panics on the concrete
empty command vector, and a failing parse of a concrete test string
deserializes to the empty command vector. -/
theorem empty_command_precondition_witness :
    runTest [] "/d" (fun _ _ => .ok ⟨some 0, [], []⟩) =
      .panicked "index out of bounds: the len is 0 but the index is 0"
    ∧ (TestProject.fromPb (fun _ => none) ⟨"n", ["x"]⟩).tests = [[]] := by
  exact ⟨empty_command_precondition.1 "/d" (fun _ _ => .ok ⟨some 0, [], []⟩),
    empty_command_precondition.2.2.2 (fun _ => none) "n" "x" rfl⟩

end Theorems

end RemoteTest
